import Mathlib

/-!
Shallow embedding of the orchestration core of the User-Centric RAG multi-agent
system (src/appcopy.py, src/document_pre_processing_agent.py,
src/generation_agent.py).

The external, non-deterministic collaborators (the LLM backing each agent, the
user typing at the prompt) are modelled as per-iteration oracles in `Env`; the
deterministic control flow of `run` in appcopy.py is modelled by `step`, one
call per iteration of the `while should_continue` loop.  SharedState fields
hold dynamically-typed Python values, modelled by `PyVal`.
-/

/-- A dynamically typed Python value as stored in the shared `state` dict.
`PyVal.none` is Python `None`. -/
inductive PyVal where
  | none
  | str (s : String)
  | int (n : Int)
deriving DecidableEq, Repr

/-- Python truthiness: `None` is falsy, a string is truthy iff non-empty,
an integer is truthy iff non-zero. -/
def PyVal.truthy : PyVal → Bool
  | PyVal.none => false
  | PyVal.str s => s ≠ ""
  | PyVal.int n => n ≠ 0

/-- Python `is not None`, negated: `v.isNone` is `v is None`. -/
def PyVal.isNone : PyVal → Bool
  | PyVal.none => true
  | _ => false

/-- The shared mutable `state` dict created by `get_initial_state` in
appcopy.py: seven task-parameter fields, the sticky-speaker field, and the
completion flag. -/
structure SharedState where
  input_dir : PyVal
  chunk_size : PyVal
  chunk_overlap : PyVal
  embedding_model : PyVal
  reranking_model : PyVal
  search_type : PyVal
  query : PyVal
  current_speaker : PyVal
  just_finished : Bool
deriving DecidableEq, Repr

/-- `get_initial_state` in appcopy.py: every parameter is `None`,
`current_speaker` is `None`, `just_finished` is `False`. -/
def get_initial_state : SharedState :=
  { input_dir := PyVal.none, chunk_size := PyVal.none, chunk_overlap := PyVal.none,
    embedding_model := PyVal.none, reranking_model := PyVal.none,
    search_type := PyVal.none, query := PyVal.none,
    current_speaker := PyVal.none, just_finished := false }

/-- The `Speaker(str, Enum)` class of appcopy.py, with its seven members. -/
inductive Speaker where
  | Data_pre_processing
  | Indexing
  | Retriever
  | ReRanking
  | Generation
  | Concierge
  | ORCHESTRATOR
deriving DecidableEq, Repr

/-- The string value of each `Speaker` enum member, exactly as written in
appcopy.py lines 48-55. -/
def Speaker.value : Speaker → String
  | Speaker.Data_pre_processing => "data_pre_processing"
  | Speaker.Indexing => "indexing"
  | Speaker.Retriever => "retriever"
  | Speaker.ReRanking => "reranking"
  | Speaker.Generation => "generation"
  | Speaker.Concierge => "Concierge"
  | Speaker.ORCHESTRATOR => "orchestrator"

/-- Python `str.strip()` with no argument: remove leading and trailing
whitespace (structural recursion over the character list, so that concrete
traces evaluate in the kernel). -/
def pyStrip (s : String) : String :=
  String.mk (((s.data.dropWhile Char.isWhitespace).reverse.dropWhile
    Char.isWhitespace).reverse)

/-- Python `str.lower()` (ASCII case folding, which covers the literals the
loop compares against). -/
def pyLower (s : String) : String := String.mk (s.data.map Char.toLower)

/-- One message of the conversation log (ChatMemoryBuffer content). The
orchestration core never inspects message contents, only passes logs around. -/
structure ChatMessage where
  role : String
  content : String
deriving DecidableEq, Repr

/-- `has_input_dir` tool of `DocumentPreprocessingAgent`
(document_pre_processing_agent.py lines 75-79): unconditionally assigns the
argument to `state["input_dir"]`, then returns `state["input_dir"] is not None`. -/
def has_input_dir (v : PyVal) (state : SharedState) : Bool × SharedState :=
  let state := { state with input_dir := v }
  (!state.input_dir.isNone, state)

/-- `has_chunk_size` tool of `DocumentPreprocessingAgent` (lines 81-85). -/
def has_chunk_size (v : PyVal) (state : SharedState) : Bool × SharedState :=
  let state := { state with chunk_size := v }
  (!state.chunk_size.isNone, state)

/-- `has_chunk_overlap` tool of `DocumentPreprocessingAgent` (lines 87-91). -/
def has_chunk_overlap (v : PyVal) (state : SharedState) : Bool × SharedState :=
  let state := { state with chunk_overlap := v }
  (!state.chunk_overlap.isNone, state)

/-- `done` tool of `DocumentPreprocessingAgent`
(document_pre_processing_agent.py lines 93-97): clears `current_speaker`,
sets `just_finished`, touches nothing else. -/
def preprocessing_done (state : SharedState) : SharedState :=
  { state with current_speaker := PyVal.none, just_finished := true }

/-- `done` tool of `GenerationAgent` (generation_agent.py lines 109-118):
first computes the answer via `generation(state)` — a read of SharedState
whose retrieval back end (`Retriever`, in retriever_agent.py, which is not
among the sources; modelled from the spec as the read-only executor
`retrieve_rerank(query, search_type, reranking_model) -> ranked_document[]`) —
then clears `current_speaker`, sets `just_finished`, and returns the response.
The response computation is abstracted as the parameter `resp`. -/
def generation_done (resp : SharedState → String) (state : SharedState) :
    String × SharedState :=
  (resp state, { state with current_speaker := PyVal.none, just_finished := true })

/-- Modelled from the spec: the indexing agent lives in src/indexing_agent.py,
which is not among the sources; per spec section 4.2 every task agent has "a
single completion action, finish(), which clears current_speaker, sets
just_finished = true, and returns the turn's final payload". -/
def indexing_done (state : SharedState) : SharedState :=
  { state with current_speaker := PyVal.none, just_finished := true }

/-- Modelled from the spec: the indexing agent's parameter setter for
`embedding_model` (spec section 4.2: "parameter-setter actions that record a
user-supplied value into the named SharedState field, gated to return a
boolean"), with the same shape as the setters of
document_pre_processing_agent.py. -/
def has_embedding_model (v : PyVal) (state : SharedState) : Bool × SharedState :=
  let state := { state with embedding_model := v }
  (!state.embedding_model.isNone, state)

/-- The tools an LLM-driven agent turn may invoke, across all agents of the
repository.  `run_process_documents` (preprocess_docs.process_documents),
`run_embed_index` and `run_generation` call external executors and write no
SharedState field; `dummy_tool` is the no-op tool of the concierge and
continuation agents. -/
inductive ToolCall where
  | set_input_dir (v : PyVal)
  | set_chunk_size (v : PyVal)
  | set_chunk_overlap (v : PyVal)
  | run_process_documents
  | preprocessing_finish
  | set_embedding_model (v : PyVal)
  | run_embed_index
  | indexing_finish
  | run_generation
  | generation_finish
  | dummy_tool
deriving DecidableEq, Repr

/-- Effect of one tool call on SharedState, as implemented by the tool bodies
in the source files (and, for the indexing agent, modelled from the spec). -/
def applyCall : ToolCall → SharedState → SharedState
  | ToolCall.set_input_dir v, st => (has_input_dir v st).2
  | ToolCall.set_chunk_size v, st => (has_chunk_size v st).2
  | ToolCall.set_chunk_overlap v, st => (has_chunk_overlap v st).2
  | ToolCall.run_process_documents, st => st
  | ToolCall.preprocessing_finish, st => preprocessing_done st
  | ToolCall.set_embedding_model v, st => (has_embedding_model v st).2
  | ToolCall.run_embed_index, st => st
  | ToolCall.indexing_finish, st => indexing_done st
  | ToolCall.run_generation, st => st
  | ToolCall.generation_finish, st => (generation_done (fun _ => "") st).2
  | ToolCall.dummy_tool, st => st

/-- Effect of a sequence of tool calls during one agent turn. -/
def applyCalls (cs : List ToolCall) (st : SharedState) : SharedState :=
  cs.foldl (fun s c => applyCall c s) st

/-- Observable events of one iteration of the `run` loop, in program order:
a call to the continuation agent (with the history it is given), a direct
`input()` prompt to the user, the exit message, a call to the orchestration
agent (with the utterance it routes), dispatch of an agent, the dispatched
agent's chat turn, and the invalid-decision retry. -/
inductive Event where
  | continuationCall (history : List ChatMessage)
  | userPrompt
  | exited
  | routerCall (msg : String)
  | dispatched (speaker : String)
  | agentChat (speaker : String) (msg : String)
  | retried
deriving DecidableEq, Repr

/-- What the dispatched agent does during `current_speaker.chat(...)`:
the SharedState-mutating tool calls its LLM issues, its printed reply, and
the full memory log `current_speaker.memory.get_all()` it returns
(adopted wholesale by the loop at appcopy.py lines 283-284). -/
structure AgentTurn where
  calls : List ToolCall
  reply : String
  newHistory : List ChatMessage

/-- Per-iteration oracle for everything outside the loop's own control flow:
the continuation agent's text, the user's `input()` line, the orchestration
agent's raw text, and the behaviour of whichever agent gets dispatched. -/
structure Env where
  contOutput : String
  userInput : String
  orchOutput : String
  script : Speaker → AgentTurn

/-- The loop-local variables of `run` (appcopy.py lines 203-284):
the shared state dict, the canonical `root_memory`, the three control flags,
and the Python variable `current_history`, which persists across iterations
and is only reassigned at line 241. -/
structure LoopState where
  state : SharedState
  rootMemory : List ChatMessage
  firstRun : Bool
  isRetry : Bool
  shouldContinue : Bool
  currentHistory : List ChatMessage

/-- The fixed greeting of the first iteration (appcopy.py line 215). -/
def helloMsg : String := "Hello there!"

/-- The fixed clarification message used on a retry iteration
(appcopy.py line 218). -/
def retryMsg : String := "That's not right, try again. Pick one agent."

/-- The continuation sentinel (appcopy.py line 229). -/
def noFurtherTask : String := "no_further_task"

/-- Result of the utterance-determination section of one loop iteration
(appcopy.py lines 213-240): the chosen `user_msg_str`, the updated flags, and
the events emitted. -/
structure Phase1Out where
  msg : String
  firstRun : Bool
  isRetry : Bool
  justFinished : Bool
  shouldContinue : Bool
  events : List Event

/-- The utterance-determination section of one loop iteration, mirroring the
`if first_run / elif is_retry / elif just_finished / else` chain of
appcopy.py lines 213-240.  Note that in the `just_finished` branch the
continuation agent is given `l.currentHistory`, the Python variable as left by
the previous iteration, and that typing `exit` only clears `should_continue`:
execution falls through to the rest of the iteration. -/
def phase1 (env : Env) (l : LoopState) : Phase1Out :=
  if l.firstRun then
    { msg := helloMsg, firstRun := false, isRetry := l.isRetry,
      justFinished := l.state.just_finished, shouldContinue := l.shouldContinue,
      events := [] }
  else if l.isRetry then
    { msg := retryMsg, firstRun := l.firstRun, isRetry := false,
      justFinished := l.state.just_finished, shouldContinue := l.shouldContinue,
      events := [] }
  else if l.state.just_finished then
    if env.contOutput = noFurtherTask then
      let u := pyStrip env.userInput
      if pyLower u = "exit" then
        { msg := u, firstRun := l.firstRun, isRetry := l.isRetry,
          justFinished := false, shouldContinue := false,
          events := [Event.continuationCall l.currentHistory, Event.userPrompt,
                     Event.exited] }
      else
        { msg := u, firstRun := l.firstRun, isRetry := l.isRetry,
          justFinished := false, shouldContinue := l.shouldContinue,
          events := [Event.continuationCall l.currentHistory, Event.userPrompt] }
    else
      { msg := env.contOutput, firstRun := l.firstRun, isRetry := l.isRetry,
        justFinished := false, shouldContinue := l.shouldContinue,
        events := [Event.continuationCall l.currentHistory] }
  else
    let u := pyStrip env.userInput
    if pyLower u = "exit" then
      { msg := u, firstRun := l.firstRun, isRetry := l.isRetry,
        justFinished := l.state.just_finished, shouldContinue := false,
        events := [Event.userPrompt, Event.exited] }
    else
      { msg := u, firstRun := l.firstRun, isRetry := l.isRetry,
        justFinished := l.state.just_finished, shouldContinue := l.shouldContinue,
        events := [Event.userPrompt] }

/-- The dispatch section of appcopy.py lines 254-272: `next_speaker` is
compared, in order, against `Speaker.Data_pre_processing`, `Speaker.Indexing`,
`Speaker.Generation`, `Speaker.Concierge` (string equality against the enum
values); anything else falls to the retry branch (`none`). -/
def dispatchOf (next : PyVal) : Option Speaker :=
  if next = PyVal.str (Speaker.value Speaker.Data_pre_processing) then
    some Speaker.Data_pre_processing
  else if next = PyVal.str (Speaker.value Speaker.Indexing) then
    some Speaker.Indexing
  else if next = PyVal.str (Speaker.value Speaker.Generation) then
    some Speaker.Generation
  else if next = PyVal.str (Speaker.value Speaker.Concierge) then
    some Speaker.Concierge
  else none

/-- One full iteration of the `while should_continue` loop of `run`
(appcopy.py lines 212-284): utterance determination, the line-241 snapshot
`current_history = root_memory.get()`, speaker resolution (sticky check by
Python truthiness at line 244, else orchestration call with the output
stripped at line 250), dispatch (the three task agents additionally set
`current_speaker`; Concierge does not; an unrecognized value sets `is_retry`
and `continue`s), the agent chat, and the wholesale memory adoption. -/
def step (env : Env) (l : LoopState) : LoopState × List Event :=
  let p := phase1 env l
  let st1 : SharedState := { l.state with just_finished := p.justFinished }
  let next : PyVal :=
    if st1.current_speaker.truthy then st1.current_speaker
    else PyVal.str (pyStrip env.orchOutput)
  let ev1 : List Event :=
    if st1.current_speaker.truthy then p.events
    else p.events ++ [Event.routerCall p.msg]
  match dispatchOf next with
  | some sp =>
      let st2 : SharedState :=
        if sp = Speaker.Concierge then st1
        else { st1 with current_speaker := next }
      let t := env.script sp
      let st3 := applyCalls t.calls st2
      ({ state := st3, rootMemory := t.newHistory, firstRun := p.firstRun,
         isRetry := p.isRetry, shouldContinue := p.shouldContinue,
         currentHistory := l.rootMemory },
       ev1 ++ [Event.dispatched sp.value, Event.agentChat sp.value p.msg])
  | none =>
      ({ state := st1, rootMemory := l.rootMemory, firstRun := p.firstRun,
         isRetry := true, shouldContinue := p.shouldContinue,
         currentHistory := l.rootMemory },
       ev1 ++ [Event.retried])

/-- Iterating the loop over a list of per-iteration oracles, honouring the
`while should_continue` guard. -/
def runSteps : List Env → LoopState → LoopState
  | [], l => l
  | e :: es, l => if l.shouldContinue then runSteps es (step e l).1 else l

/-- The loop variables as initialized at the top of `run`
(appcopy.py lines 204-210); `currentHistory` starts empty (the Python variable
is first assigned, to the then-empty memory, before it is ever read). -/
def initialLoop : LoopState :=
  { state := get_initial_state, rootMemory := [], firstRun := true,
    isRetry := false, shouldContinue := true, currentHistory := [] }

/-- User intent as recovered from the chat history by the orchestration
agent. -/
inductive Intent where
  | preprocess
  | index
  | generate
  | other
deriving DecidableEq, Repr

/-- String rendering of a Python value, for the sticky instruction of the
orchestration prompt ("simply output that value"). -/
def PyVal.render : PyVal → String
  | PyVal.none => "None"
  | PyVal.str s => s
  | PyVal.int n => toString n

/-- The routing decision procedure stated by the orchestration agent's system
prompt (appcopy.py lines 150-172), read as a decision table in the order its
instructions are listed: sticky speaker first, then per-intent gates using the
`has_*` checks (which test `is not None`), with Concierge as the default. -/
def router_decide (intent : Intent) (st : SharedState) : String :=
  if !st.current_speaker.isNone then st.current_speaker.render
  else
    match intent with
    | Intent.preprocess =>
        if st.input_dir.isNone || st.chunk_size.isNone || st.chunk_overlap.isNone then
          Speaker.value Speaker.Concierge
        else Speaker.value Speaker.Data_pre_processing
    | Intent.index =>
        if st.embedding_model.isNone then Speaker.value Speaker.Concierge
        else if st.input_dir.isNone || st.chunk_size.isNone || st.chunk_overlap.isNone then
          Speaker.value Speaker.Data_pre_processing
        else Speaker.value Speaker.Indexing
    | Intent.generate =>
        if st.query.isNone || st.search_type.isNone || st.reranking_model.isNone then
          Speaker.value Speaker.Concierge
        else Speaker.value Speaker.Generation
    | Intent.other => Speaker.value Speaker.Concierge

/-- The values `current_speaker` can hold in any state reachable by the run
loop: `None` initially and after any completion action, or the enum value of
one of the three sticky task agents, written at dispatch. -/
def SpeakerInv (st : SharedState) : Prop :=
  st.current_speaker = PyVal.none ∨
  st.current_speaker = PyVal.str "data_pre_processing" ∨
  st.current_speaker = PyVal.str "indexing" ∨
  st.current_speaker = PyVal.str "generation"

/-- An agent turn that never invokes a completion action. -/
def NoFinish (cs : List ToolCall) : Prop :=
  ∀ c ∈ cs, c ≠ ToolCall.preprocessing_finish ∧ c ≠ ToolCall.indexing_finish ∧
    c ≠ ToolCall.generation_finish

/-- A neutral agent turn (no tool calls) used to instantiate the loop theorems
on explicit inputs. -/
def sampleTurn : AgentTurn := { calls := [], reply := "ok", newHistory := [] }

/-- A concrete per-iteration oracle: the user says "hello", the orchestration
agent answers "Concierge", agents issue no tool calls. -/
def sampleEnv : Env :=
  { contOutput := "hello", userInput := "hello", orchOutput := "Concierge",
    script := fun _ => sampleTurn }

/-- Loop variables after the greeting iteration has cleared `first_run`. -/
def freshLoop : LoopState := { initialLoop with firstRun := false }

/-- Loop variables with a sticky indexing speaker in the shared state. -/
def stickyLoop : LoopState :=
  { freshLoop with
    state := { get_initial_state with current_speaker := PyVal.str "indexing" } }

/-- Loop variables right after a task agent signalled completion. -/
def jfLoop : LoopState :=
  { freshLoop with state := { get_initial_state with just_finished := true } }

/-- Oracle in which the user types the exit command at the direct prompt. -/
def exitEnv : Env := { sampleEnv with userInput := "exit" }

/-- Oracle in which the orchestration agent routes to the generation agent,
whose turn calls its completion tool and appends the turn's two messages to
the log. -/
def genFinishEnv : Env :=
  { sampleEnv with
    orchOutput := "generation",
    script := fun _ =>
      { calls := [ToolCall.generation_finish], reply := "ans",
        newHistory := [ChatMessage.mk "user" "Hello there!",
                       ChatMessage.mk "assistant" "ans"] } }

/-- Oracle in which the continuation agent returns the sentinel surrounded by
whitespace. -/
def padSentinelEnv : Env := { sampleEnv with contOutput := " no_further_task " }

/-- Oracle in which the orchestration agent returns a string outside the
closed identifier set. -/
def bananaEnv : Env := { sampleEnv with orchOutput := "banana" }

/-- Oracle in which the orchestration agent returns the non-dispatchable
Speaker member "retriever". -/
def retrieverEnv : Env := { sampleEnv with orchOutput := "retriever" }

/-- Oracle in which the continuation agent returns exactly the sentinel and
the orchestration agent returns "generation" padded with whitespace. -/
def trimmedRouterEnv : Env :=
  { sampleEnv with
    contOutput := "no_further_task",
    orchOutput := "  generation  " }

/-! ## Supporting lemmas -/

theorem applyCall_speaker (c : ToolCall) (st : SharedState) :
    (applyCall c st).current_speaker = st.current_speaker ∨
    (applyCall c st).current_speaker = PyVal.none := by
  cases c <;>
    simp [applyCall, has_input_dir, has_chunk_size, has_chunk_overlap,
      has_embedding_model, preprocessing_done, indexing_done, generation_done]

theorem applyCalls_nil (st : SharedState) : applyCalls [] st = st := rfl

theorem applyCalls_cons (c : ToolCall) (cs : List ToolCall) (st : SharedState) :
    applyCalls (c :: cs) st = applyCalls cs (applyCall c st) := rfl

theorem applyCalls_speaker (cs : List ToolCall) (st : SharedState) :
    (applyCalls cs st).current_speaker = st.current_speaker ∨
    (applyCalls cs st).current_speaker = PyVal.none := by
  induction cs generalizing st with
  | nil => exact Or.inl rfl
  | cons c cs ih =>
      rw [applyCalls_cons]
      rcases ih (applyCall c st) with h | h
      · rcases applyCall_speaker c st with h2 | h2
        · exact Or.inl (h.trans h2)
        · exact Or.inr (h.trans h2)
      · exact Or.inr h

theorem applyCall_jf (c : ToolCall) (st : SharedState)
    (h1 : c ≠ ToolCall.preprocessing_finish) (h2 : c ≠ ToolCall.indexing_finish)
    (h3 : c ≠ ToolCall.generation_finish) :
    (applyCall c st).just_finished = st.just_finished := by
  cases c <;> simp_all [applyCall, has_input_dir, has_chunk_size,
    has_chunk_overlap, has_embedding_model]

theorem applyCalls_jf (cs : List ToolCall) (st : SharedState)
    (h : NoFinish cs) (hst : st.just_finished = false) :
    (applyCalls cs st).just_finished = false := by
  induction cs generalizing st with
  | nil => exact hst
  | cons c cs ih =>
      rw [applyCalls_cons]
      have hc := h c (by simp)
      have hjf : (applyCall c st).just_finished = false := by
        rw [applyCall_jf c st hc.1 hc.2.1 hc.2.2, hst]
      exact ih (applyCall c st) (fun d hd => h d (by simp [hd])) hjf

theorem phase1_event_shape (env : Env) (l : LoopState) :
    ∀ e ∈ (phase1 env l).events,
      e = Event.userPrompt ∨ e = Event.exited ∨
      e = Event.continuationCall l.currentHistory := by
  intro e he
  simp only [phase1] at he
  split_ifs at he <;> simp_all <;> tauto

theorem phase1_jf_false (env : Env) (l : LoopState)
    (h : l.state.just_finished = false) :
    (phase1 env l).justFinished = false := by
  simp only [phase1]
  split_ifs <;> simp_all

theorem phase1_firstRun_false (env : Env) (l : LoopState)
    (h : l.firstRun = false) :
    (phase1 env l).firstRun = false := by
  simp only [phase1]
  split_ifs <;> simp_all

theorem phase1_jf_branch (env : Env) (l : LoopState)
    (h1 : l.firstRun = false) (h2 : l.isRetry = false)
    (h3 : l.state.just_finished = true) :
    (phase1 env l).justFinished = false ∧
    ∃ rest, (phase1 env l).events = Event.continuationCall l.currentHistory :: rest := by
  simp only [phase1, h1, h2, h3]
  split_ifs <;> simp_all

theorem phase1_userPrompt_iff (env : Env) (l : LoopState)
    (h1 : l.firstRun = false) (h2 : l.isRetry = false)
    (h3 : l.state.just_finished = true) :
    Event.userPrompt ∈ (phase1 env l).events ↔ env.contOutput = noFurtherTask := by
  simp only [phase1, h1, h2, h3]
  split_ifs <;> simp_all

theorem step_userPrompt_iff (env : Env) (l : LoopState) :
    Event.userPrompt ∈ (step env l).2 ↔
      Event.userPrompt ∈ (phase1 env l).events := by
  simp only [step]
  split <;> split_ifs <;> simp

theorem step_continuationCall_iff (env : Env) (l : LoopState)
    (h : List ChatMessage) :
    Event.continuationCall h ∈ (step env l).2 ↔
      Event.continuationCall h ∈ (phase1 env l).events := by
  simp only [step]
  split <;> split_ifs <;> simp

theorem step_events_prefix (env : Env) (l : LoopState) :
    ∃ tail, (step env l).2 = (phase1 env l).events ++ tail := by
  simp only [step]
  split <;> split_ifs <;>
    first
      | exact ⟨_, rfl⟩
      | exact ⟨_, by rw [List.append_assoc]⟩

theorem runSteps_cons (e : Env) (es : List Env) (l : LoopState) :
    runSteps (e :: es) l =
      if l.shouldContinue then runSteps es (step e l).1 else l := rfl

theorem dispatchOf_some (v : PyVal) (sp : Speaker) (h : dispatchOf v = some sp) :
    v = PyVal.str sp.value ∧
    (sp = Speaker.Data_pre_processing ∨ sp = Speaker.Indexing ∨
     sp = Speaker.Generation ∨ sp = Speaker.Concierge) := by
  simp only [dispatchOf] at h
  split_ifs at h with h1 h2 h3 h4
  · obtain rfl : Speaker.Data_pre_processing = sp := Option.some.inj h
    exact ⟨h1, Or.inl rfl⟩
  · obtain rfl : Speaker.Indexing = sp := Option.some.inj h
    exact ⟨h2, Or.inr (Or.inl rfl)⟩
  · obtain rfl : Speaker.Generation = sp := Option.some.inj h
    exact ⟨h3, Or.inr (Or.inr (Or.inl rfl))⟩
  · obtain rfl : Speaker.Concierge = sp := Option.some.inj h
    exact ⟨h4, Or.inr (Or.inr (Or.inr rfl))⟩

theorem applyCalls_speakerInv (cs : List ToolCall) (st : SharedState)
    (h : SpeakerInv st) : SpeakerInv (applyCalls cs st) := by
  rcases applyCalls_speaker cs st with h2 | h2
  · unfold SpeakerInv at *
    rw [h2]
    exact h
  · exact Or.inl h2

theorem step_preserves_speakerInv (env : Env) (l : LoopState)
    (h : SpeakerInv l.state) : SpeakerInv (step env l).1.state := by
  simp only [step]
  split
  case _ sp heq =>
    refine applyCalls_speakerInv _ _ ?_
    obtain ⟨hv, hsp4⟩ := dispatchOf_some _ _ heq
    rw [hv]
    by_cases hc : sp = Speaker.Concierge
    · rw [if_pos hc]
      exact h
    · rw [if_neg hc]
      unfold SpeakerInv
      rcases hsp4 with h4 | h4 | h4 | h4
      · subst h4; exact Or.inr (Or.inl rfl)
      · subst h4; exact Or.inr (Or.inr (Or.inl rfl))
      · subst h4; exact Or.inr (Or.inr (Or.inr rfl))
      · exact absurd h4 hc
  case _ heq => exact h

theorem runSteps_speakerInv (envs : List Env) (l : LoopState)
    (h : SpeakerInv l.state) : SpeakerInv (runSteps envs l).state := by
  induction envs generalizing l with
  | nil => exact h
  | cons e es ih =>
      rw [runSteps_cons]
      split
      · exact ih (step e l).1 (step_preserves_speakerInv e l h)
      · exact h

theorem step_preserves_not_finished (env : Env) (l : LoopState)
    (hjf : l.state.just_finished = false)
    (hnf : ∀ sp, NoFinish (env.script sp).calls) :
    (step env l).1.state.just_finished = false := by
  have hp := phase1_jf_false env l hjf
  simp only [step]
  split
  case _ sp heq =>
    refine applyCalls_jf _ _ (hnf sp) ?_
    split_ifs <;> simp [hp]
  case _ heq => simp [hp]

theorem runSteps_not_finished (envs : List Env) (l : LoopState)
    (hjf : l.state.just_finished = false)
    (hnfs : ∀ e ∈ envs, ∀ sp, NoFinish (e.script sp).calls) :
    (runSteps envs l).state.just_finished = false := by
  induction envs generalizing l with
  | nil => exact hjf
  | cons e es ih =>
      rw [runSteps_cons]
      split
      · exact ih (step e l).1
          (step_preserves_not_finished e l hjf (hnfs e (by simp)))
          (fun e2 he2 => hnfs e2 (by simp [he2]))
      · exact hjf

theorem step_retry_iteration (env : Env) (l : LoopState)
    (hfr : l.firstRun = false) (hir : l.isRetry = true)
    (hsp : l.state.current_speaker.truthy = false) :
    Event.routerCall retryMsg ∈ (step env l).2 ∧
    Event.userPrompt ∉ (step env l).2 := by
  rcases hd : dispatchOf (PyVal.str (pyStrip env.orchOutput)) with _ | sp <;>
    simp [step, phase1, hfr, hir, hsp, hd]

theorem speakerInv_initial : SpeakerInv initialLoop.state := Or.inl rfl

/-! ## Claim theorems -/

/-- C1: In every loop iteration of `run`, if `state["current_speaker"]` is
non-null at the speaker-resolution step (ranging over the values the loop can
actually store there, `SpeakerInv`, preserved by `step_preserves_speakerInv`
from `speakerInv_initial`), the resolved next speaker is exactly that value —
witnessed by the `dispatched` event naming it — and the orchestration agent is
not consulted; conversely, a router call happens only when `current_speaker`
is null. -/
theorem sticky_speaker_resolution (env : Env) (l : LoopState)
    (hinv : SpeakerInv l.state) :
    (∀ s, l.state.current_speaker = PyVal.str s →
      (∀ m, Event.routerCall m ∉ (step env l).2) ∧
      Event.dispatched s ∈ (step env l).2) ∧
    (∀ m, Event.routerCall m ∈ (step env l).2 →
      l.state.current_speaker = PyVal.none) := by
  have hsh := phase1_event_shape env l
  rcases hinv with h | h | h | h
  · refine ⟨?_, fun m _ => h⟩
    intro s hs
    rw [h] at hs
    cases hs
  all_goals {
    have hno : ∀ m, Event.routerCall m ∉ (step env l).2 := by
      intro m
      simp [step, h, PyVal.truthy, dispatchOf, Speaker.value]
      intro hm
      rcases hsh _ hm with h1 | h1 | h1 <;> simp_all
    refine ⟨?_, fun m hm => absurd hm (hno m)⟩
    intro s hs
    rw [h] at hs
    injection hs with hs
    subst hs
    exact ⟨hno, by simp [step, h, PyVal.truthy, dispatchOf, Speaker.value]⟩
  }

/-- Witness for C1 at a concrete sticky state and oracle. -/
theorem sticky_speaker_resolution_witness :
    Event.routerCall "hello" ∉ (step sampleEnv stickyLoop).2 ∧
    Event.dispatched "indexing" ∈ (step sampleEnv stickyLoop).2 := by
  have h := (sticky_speaker_resolution sampleEnv stickyLoop
    (Or.inr (Or.inr (Or.inl rfl)))).1 "indexing" rfl
  exact ⟨h.1 "hello", h.2⟩

/-- C2 (the code diverges from this claim): typing `exit` at the direct prompt
sets `should_continue = False`, but execution falls through — within the same
iteration the orchestration agent is still consulted with the utterance
"exit", an agent is still dispatched, and it still executes a chat turn on
that utterance; the loop stops only at the next `while` check. -/
theorem exit_is_not_terminal :
    (step exitEnv freshLoop).1.shouldContinue = false ∧
    Event.routerCall "exit" ∈ (step exitEnv freshLoop).2 ∧
    Event.dispatched "Concierge" ∈ (step exitEnv freshLoop).2 ∧
    Event.agentChat "Concierge" "exit" ∈ (step exitEnv freshLoop).2 := by
  decide

/-- C3: when the orchestration agent is consulted and returns a string outside
the dispatchable set, the iteration mutates no SharedState field, sets the
retry flag, keeps the canonical log and dispatches no agent; the following
iteration consumes no direct user input and re-routes with the fixed
clarification message in place of the user's turn. -/
theorem invalid_decision_retry (env env2 : Env) (l : LoopState)
    (hfr : l.firstRun = false)
    (hjf : l.state.just_finished = false)
    (hsp : l.state.current_speaker.truthy = false)
    (hbad : dispatchOf (PyVal.str (pyStrip env.orchOutput)) = none) :
    (step env l).1.state = l.state ∧
    (step env l).1.isRetry = true ∧
    (step env l).1.rootMemory = l.rootMemory ∧
    (∀ sp, Event.dispatched sp ∉ (step env l).2) ∧
    Event.userPrompt ∉ (step env2 (step env l).1).2 ∧
    Event.routerCall retryMsg ∈ (step env2 (step env l).1).2 := by
  have hp := phase1_jf_false env l hjf
  have hfr2 := phase1_firstRun_false env l hfr
  have hsh := phase1_event_shape env l
  have hst1 : ({ l.state with just_finished := (phase1 env l).justFinished } :
      SharedState) = l.state := by
    rw [hp, ← hjf]
  have h1 : (step env l).1.state = l.state := by
    simp [step, hsp, hbad, hst1]
  have h2 : (step env l).1.isRetry = true := by
    simp [step, hsp, hbad]
  have h3 : (step env l).1.rootMemory = l.rootMemory := by
    simp [step, hsp, hbad]
  have h4 : (step env l).1.firstRun = false := by
    have hx : (step env l).1.firstRun = (phase1 env l).firstRun := by
      simp [step, hsp, hbad]
    rw [hx, hfr2]
  have h5 : (step env l).1.state.current_speaker.truthy = false := by
    rw [h1]
    exact hsp
  have hr := step_retry_iteration env2 (step env l).1 h4 h2 h5
  refine ⟨h1, h2, h3, ?_, hr.2, hr.1⟩
  intro sp
  simp [step, hsp, hbad]
  intro hm
  rcases hsh _ hm with hx | hx | hx <;> simp_all

/-- Witness for C3 at a concrete invalid router output. -/
theorem invalid_decision_retry_witness :
    (step bananaEnv freshLoop).1.isRetry = true ∧
    Event.routerCall retryMsg ∈
      (step sampleEnv (step bananaEnv freshLoop).1).2 := by
  have h := invalid_decision_retry bananaEnv sampleEnv freshLoop rfl rfl rfl
    (by decide)
  exact ⟨h.2.1, h.2.2.2.2.2⟩

/-- C4: each task agent's completion action sets `current_speaker` to null and
`just_finished` to true, and writes no other SharedState field — the resulting
state is the input state with exactly those two fields updated.  The
generation agent's `done` additionally returns the response computed from a
read of the state. -/
theorem completion_action_only_clears_speaker_and_flag
    (st : SharedState) (resp : SharedState → String) :
    preprocessing_done st =
      { st with current_speaker := PyVal.none, just_finished := true } ∧
    (generation_done resp st).2 =
      { st with current_speaker := PyVal.none, just_finished := true } ∧
    (generation_done resp st).1 = resp st ∧
    indexing_done st =
      { st with current_speaker := PyVal.none, just_finished := true } :=
  ⟨rfl, rfl, rfl, rfl⟩

/-- C5: if `just_finished` is true at the start of an iteration that is
neither the first run nor a retry, the continuation agent is invoked before
anything else — in particular before any direct user prompt (it is the very
first event of the iteration) — the flag is reset to false within that same
iteration, and it stays false over any further iterations whose agent turns
issue no completion action. -/
theorem continuation_roundtrip (env : Env) (l : LoopState) (envs : List Env)
    (hfr : l.firstRun = false) (hir : l.isRetry = false)
    (hjf : l.state.just_finished = true)
    (hnf : ∀ sp, NoFinish (env.script sp).calls)
    (hnfs : ∀ e ∈ envs, ∀ sp, NoFinish (e.script sp).calls) :
    (∃ rest, (step env l).2 = Event.continuationCall l.currentHistory :: rest) ∧
    (step env l).1.state.just_finished = false ∧
    (runSteps envs (step env l).1).state.just_finished = false := by
  obtain ⟨hpjf, rest0, hev⟩ := phase1_jf_branch env l hfr hir hjf
  have hjf1 : (step env l).1.state.just_finished = false := by
    simp only [step]
    split
    case _ sp heq =>
      refine applyCalls_jf _ _ (hnf sp) ?_
      split_ifs <;> simp [hpjf]
    case _ heq => simp [hpjf]
  refine ⟨?_, hjf1, runSteps_not_finished envs _ hjf1 hnfs⟩
  obtain ⟨tail, ht⟩ := step_events_prefix env l
  rw [ht, hev]
  exact ⟨rest0 ++ tail, by simp⟩

/-- Witness for C5 at a concrete post-completion state. -/
theorem continuation_roundtrip_witness :
    (step sampleEnv jfLoop).1.state.just_finished = false ∧
    (step sampleEnv jfLoop).2.head? = some (Event.continuationCall []) := by
  have h := continuation_roundtrip sampleEnv jfLoop [] rfl rfl rfl
    (fun sp c hc => absurd hc (List.not_mem_nil c))
    (fun e he => absurd he (List.not_mem_nil e))
  refine ⟨h.2.1, ?_⟩
  obtain ⟨rest, hr⟩ := h.1
  rw [hr]
  rfl

/-- C6 (the code diverges from this claim): the continuation agent is given
`current_history`, the snapshot of the canonical log taken at line 241 of the
previous iteration — i.e. BEFORE the just-completed turn ran — not the log
adopted from the agent at the end of that iteration.  Concretely: the first
iteration dispatches the generation agent, which finishes and returns a
two-message log that the loop adopts wholesale, yet the next iteration's
continuation call receives the empty pre-turn snapshot. -/
theorem continuation_history_is_stale :
    (step genFinishEnv initialLoop).1.state.just_finished = true ∧
    (step genFinishEnv initialLoop).1.rootMemory =
      [ChatMessage.mk "user" "Hello there!", ChatMessage.mk "assistant" "ans"] ∧
    Event.continuationCall [] ∈
      (step sampleEnv (step genFinishEnv initialLoop).1).2 := by
  decide

/-- C7 (amended): the orchestration agent's raw output is whitespace-stripped
before the exact comparisons of the dispatch step, but the continuation
agent's output is compared to the sentinel exactly, WITHOUT stripping: the
fall-back to a direct user prompt happens iff the output is exactly
"no_further_task". -/
theorem token_matching (env : Env) (l : LoopState)
    (hfr : l.firstRun = false) (hir : l.isRetry = false)
    (hjf : l.state.just_finished = true)
    (hsp : l.state.current_speaker.truthy = false) :
    (Event.userPrompt ∈ (step env l).2 ↔ env.contOutput = noFurtherTask) ∧
    (pyStrip env.orchOutput = "generation" →
      Event.dispatched "generation" ∈ (step env l).2) := by
  constructor
  · exact (step_userPrompt_iff env l).trans (phase1_userPrompt_iff env l hfr hir hjf)
  · intro hg
    simp [step, hsp, hg, dispatchOf, Speaker.value]

/-- Witness for C7's amended statement at concrete outputs. -/
theorem token_matching_witness :
    Event.userPrompt ∈ (step trimmedRouterEnv jfLoop).2 ∧
    Event.dispatched "generation" ∈ (step trimmedRouterEnv jfLoop).2 := by
  have h := token_matching trimmedRouterEnv jfLoop rfl rfl rfl rfl
  exact ⟨h.1.mpr rfl, h.2 (by decide)⟩

/-- C7 counterexample: a continuation output consisting of the sentinel
surrounded by whitespace is NOT recognized as NoFurtherTask — the loop does
not fall back to a direct user prompt and instead routes the padded string as
the turn's utterance. -/
theorem padded_sentinel_not_recognized :
    Event.userPrompt ∉ (step padSentinelEnv jfLoop).2 ∧
    Event.routerCall " no_further_task " ∈ (step padSentinelEnv jfLoop).2 := by
  decide

/-- C8: with no sticky speaker, an indexing intent, the preprocessing trio
(`input_dir`, `chunk_size`, `chunk_overlap`) all null and `embedding_model`
set, the routing decision table stated by the orchestration system prompt
returns the Preprocessing identifier: the preprocessing-prerequisite gate
decides the output while the embedding-model gate is satisfied. -/
theorem indexing_prerequisite_gate (st : SharedState)
    (hsp : st.current_speaker = PyVal.none)
    (h1 : st.input_dir = PyVal.none) (h2 : st.chunk_size = PyVal.none)
    (h3 : st.chunk_overlap = PyVal.none)
    (h4 : st.embedding_model.isNone = false) :
    router_decide Intent.index st = Speaker.value Speaker.Data_pre_processing := by
  cases hm : st.embedding_model with
  | none => rw [hm] at h4; cases h4
  | str s => simp [router_decide, hsp, h1, h2, h3, hm, PyVal.isNone]
  | int n => simp [router_decide, hsp, h1, h2, h3, hm, PyVal.isNone]

/-- Witness for C8 at a concrete state. -/
theorem indexing_prerequisite_gate_witness :
    router_decide Intent.index
      { get_initial_state with embedding_model := PyVal.str "bge-small" } =
      "data_pre_processing" :=
  indexing_prerequisite_gate _ rfl rfl rfl rfl rfl

/-- C9 (amended): every parameter setter of the preprocessing agent
unconditionally assigns its argument to the corresponding SharedState field —
so a null argument overwrites, i.e. clears, a previously set field — and
returns true exactly when the assigned value is not null, so an empty string
is stored and reported as set.  The setters are total: no failure path
exists. -/
theorem setter_assigns_unconditionally (v : PyVal) (st : SharedState) :
    (has_input_dir v st).2.input_dir = v ∧
    ((has_input_dir v st).1 = true ↔ v ≠ PyVal.none) ∧
    (has_chunk_size v st).2.chunk_size = v ∧
    ((has_chunk_size v st).1 = true ↔ v ≠ PyVal.none) ∧
    (has_chunk_overlap v st).2.chunk_overlap = v ∧
    ((has_chunk_overlap v st).1 = true ↔ v ≠ PyVal.none) := by
  refine ⟨rfl, ?_, rfl, ?_, rfl, ?_⟩ <;>
    cases v <;>
      simp [has_input_dir, has_chunk_size, has_chunk_overlap, PyVal.isNone]

/-- C9 counterexample: calling `has_input_dir` with null clears a previously
set `input_dir`, and calling it with the empty string stores the empty string
and returns true — against "the field remains unset, the action returns
false, and a previously set field is never cleared". -/
theorem setter_counterexample :
    (has_input_dir PyVal.none
      { get_initial_state with input_dir := PyVal.str "/docs" }).2.input_dir
        = PyVal.none ∧
    (has_input_dir (PyVal.str "") get_initial_state).1 = true ∧
    (has_input_dir (PyVal.str "") get_initial_state).2.input_dir
        = PyVal.str "" := by
  decide

/-- C10: the Speaker enum's members Retriever, ReRanking and ORCHESTRATOR
(values "retriever", "reranking", "orchestrator") are never resolved to an
agent — a router output equal to any of them, or to the wrong-case
"concierge", takes the same retry path as an arbitrary unrecognized string —
while exactly "data_pre_processing", "indexing", "generation" and "Concierge"
dispatch, the first three setting `current_speaker` and Concierge leaving it
null. -/
theorem speaker_closed_dispatch_set (env : Env) (l : LoopState)
    (hsp : l.state.current_speaker = PyVal.none)
    (hsc : ∀ sp, (env.script sp).calls = []) :
    (Speaker.value Speaker.Retriever = "retriever" ∧
     Speaker.value Speaker.ReRanking = "reranking" ∧
     Speaker.value Speaker.ORCHESTRATOR = "orchestrator") ∧
    ((pyStrip env.orchOutput = "retriever" ∨
      pyStrip env.orchOutput = "reranking" ∨
      pyStrip env.orchOutput = "orchestrator" ∨
      pyStrip env.orchOutput = "concierge") →
      (step env l).1.isRetry = true ∧ Event.retried ∈ (step env l).2 ∧
      ∀ sp, Event.dispatched sp ∉ (step env l).2) ∧
    (pyStrip env.orchOutput = "data_pre_processing" →
      Event.dispatched "data_pre_processing" ∈ (step env l).2 ∧
      (step env l).1.state.current_speaker = PyVal.str "data_pre_processing") ∧
    (pyStrip env.orchOutput = "indexing" →
      Event.dispatched "indexing" ∈ (step env l).2 ∧
      (step env l).1.state.current_speaker = PyVal.str "indexing") ∧
    (pyStrip env.orchOutput = "generation" →
      Event.dispatched "generation" ∈ (step env l).2 ∧
      (step env l).1.state.current_speaker = PyVal.str "generation") ∧
    (pyStrip env.orchOutput = "Concierge" →
      Event.dispatched "Concierge" ∈ (step env l).2 ∧
      (step env l).1.state.current_speaker = PyVal.none) := by
  have hsh := phase1_event_shape env l
  have htr : l.state.current_speaker.truthy = false := by
    rw [hsp]
    rfl
  refine ⟨⟨rfl, rfl, rfl⟩, ?_, ?_, ?_, ?_, ?_⟩
  · intro hv
    have hbad : dispatchOf (PyVal.str (pyStrip env.orchOutput)) = none := by
      rcases hv with hv | hv | hv | hv <;> rw [hv] <;> decide
    refine ⟨by simp [step, htr, hbad], by simp [step, htr, hbad], ?_⟩
    intro sp
    simp [step, htr, hbad]
    intro hm
    rcases hsh _ hm with hx | hx | hx <;> simp_all
  all_goals {
    intro hv
    constructor
    · simp [step, hsp, hv, dispatchOf, Speaker.value, PyVal.truthy]
    · simp [step, hsp, hv, dispatchOf, Speaker.value, PyVal.truthy, hsc,
        applyCalls]
  }

/-- Witness for C10 at a concrete non-dispatchable Speaker member. -/
theorem speaker_closed_dispatch_set_witness :
    (step retrieverEnv freshLoop).1.isRetry = true ∧
    Event.retried ∈ (step retrieverEnv freshLoop).2 := by
  have h := speaker_closed_dispatch_set retrieverEnv freshLoop rfl (fun sp => rfl)
  have h2 := h.2.1 (Or.inl (by decide))
  exact ⟨h2.1, h2.2.1⟩
